import Mathlib

set_option synthInstance.maxSize 2000

deriving instance DecidableEq for Except

/-!
A shallow embedding of the Karlsruhe waste-collection scraper
(src/scrape.py, Python 2) and proofs about the claims of its
specification.

Strings are modelled as Lean strings (lists of unicode characters,
compared by code point, exactly as Python 2 unicode strings are).
The character-class predicates, case mappings and the transliteration
table model Python semantics on the character range exercised by this
data source: ASCII plus the German letters a-umlaut, o-umlaut,
u-umlaut, sharp s and e-acute (both cases).  Python exceptions that
can escape a modelled function are made explicit in its result type;
functions that cannot raise on the modelled domain are total.
-/

/-- Python regex class backslash-s (whitespace), ASCII part. -/
def isSpaceM (c : Char) : Bool :=
  c.toNat = 32 || c.toNat = 9 || c.toNat = 10 || c.toNat = 11 ||
  c.toNat = 12 || c.toNat = 13

/-- Python unicode.isdigit on the modelled range: the decimal digits. -/
def isDigitM (c : Char) : Bool :=
  48 ≤ c.toNat && c.toNat ≤ 57

/-- Python regex class backslash-w with re.UNICODE on the modelled range:
ASCII letters, digits, underscore, and the modelled non-ASCII letters. -/
def isWordM (c : Char) : Bool :=
  (48 ≤ c.toNat && c.toNat ≤ 57) || (65 ≤ c.toNat && c.toNat ≤ 90) ||
  (97 ≤ c.toNat && c.toNat ≤ 122) || c.toNat = 95 ||
  c.toNat = 228 || c.toNat = 246 || c.toNat = 252 || c.toNat = 223 ||
  c.toNat = 196 || c.toNat = 214 || c.toNat = 220 || c.toNat = 233 ||
  c.toNat = 201

/-- Cased characters on the modelled range (used by unicode.title). -/
def isCasedM (c : Char) : Bool :=
  (65 ≤ c.toNat && c.toNat ≤ 90) || (97 ≤ c.toNat && c.toNat ≤ 122) ||
  c.toNat = 228 || c.toNat = 246 || c.toNat = 252 || c.toNat = 223 ||
  c.toNat = 196 || c.toNat = 214 || c.toNat = 220 || c.toNat = 233 ||
  c.toNat = 201

/-- Python unicode.lower on the modelled range (code points 196, 214,
220, 201 are the upper-case umlauts and e-acute). -/
def toLowerM (c : Char) : Char :=
  if 65 ≤ c.toNat && c.toNat ≤ 90 then Char.ofNat (c.toNat + 32)
  else if c.toNat = 196 then 'ä' else if c.toNat = 214 then 'ö'
  else if c.toNat = 220 then 'ü' else if c.toNat = 201 then 'é' else c

/-- Python unicode.upper on the modelled range.  Note that in Python 2
sharp s (223) upper-cases to itself. -/
def toUpperM (c : Char) : Char :=
  if 97 ≤ c.toNat && c.toNat ≤ 122 then Char.ofNat (c.toNat - 32)
  else if c.toNat = 228 then 'Ä' else if c.toNat = 246 then 'Ö'
  else if c.toNat = 252 then 'Ü' else if c.toNat = 233 then 'É' else c

/-- The unidecode transliteration on the modelled range: ASCII is kept,
the modelled non-ASCII letters map to their ASCII folding, anything
else is dropped (unidecode maps unknown code points to the empty
string). -/
def unidecodeM (c : Char) : List Char :=
  if c.toNat ≤ 127 then [c]
  else if c.toNat = 228 then ['a']
  else if c.toNat = 246 then ['o']
  else if c.toNat = 252 then ['u']
  else if c.toNat = 223 then ['s', 's']
  else if c.toNat = 233 then ['e']
  else if c.toNat = 196 then ['A']
  else if c.toNat = 214 then ['O']
  else if c.toNat = 220 then ['U']
  else if c.toNat = 201 then ['E']
  else []

/-- Python strip(): remove leading and trailing whitespace. -/
def stripL (l : List Char) : List Char :=
  ((l.dropWhile isSpaceM).reverse.dropWhile isSpaceM).reverse

/-- Map unicode.lower over a character list. -/
def lowerL (l : List Char) : List Char :=
  l.map toLowerM

/-- A token of a parsed house number: an integer (from a maximal digit
run) or an upper-cased string (from a maximal non-digit run).  This is
the element type of the heterogeneous lists that scrape.py compares
with the Python 2 mixed-type ordering. -/
inductive Token where
  | int (n : Nat)
  | str (s : String)
  deriving DecidableEq

/-- A parsed house number: the token list returned by
_parse_house_number. -/
abbrev Key := List Token

/-- The sentinel token for the string Ende: a tilde, which compares
greater than digits and the letters A-Z by code point. -/
def sentinelTok : Token :=
  Token.str (String.mk ['~'])

/-- Python int() of a decimal digit run. -/
def digitsToNat (l : List Char) : Nat :=
  l.foldl (fun a c => a * 10 + (c.toNat - 48)) 0

/-- Build one token from a maximal run: digit runs become integers,
other runs are upper-cased (line 98 of scrape.py: maps applied by the
groupby key). -/
def mkTok (isNum : Bool) (run : List Char) : Token :=
  if isNum then Token.int (digitsToNat run)
  else Token.str (String.mk (run.map toUpperM))

/-- Accumulate the current maximal run (carried reversed is avoided:
characters are consed at the back via acc.reverse at emission). -/
def tokenizeAux : List Char → Bool → List Char → List Token
  | [], b, acc => [mkTok b acc.reverse]
  | c :: cs, b, acc =>
      if isDigitM c = b then tokenizeAux cs b (c :: acc)
      else mkTok b acc.reverse :: tokenizeAux cs (isDigitM c) [c]

/-- itertools.groupby(number, key=isdigit) followed by the int/upper
maps: split into maximal digit and non-digit runs. -/
def tokenizeL : List Char → List Token
  | [] => []
  | c :: cs => tokenizeAux cs (isDigitM c) [c]

/-- The word ende, lower case. -/
def strEnde : List Char :=
  ['e', 'n', 'd', 'e']

/-- _parse_house_number (scrape.py lines 85-100) on a character list.
The Ende test is performed on the lower-cased input BEFORE whitespace
removal, exactly as in the source (number.lower() == the literal,
then re.sub removes whitespace).  On the empty input the groupby
yields no runs, so the result is the empty token list; no exception
is raised. -/
def parseHouseNumberL (l : List Char) : Key :=
  if lowerL l = strEnde then [sentinelTok]
  else tokenizeL (l.filter (fun c => !isSpaceM c))

/-- _parse_house_number on a string. -/
def parseHouseNumber (s : String) : Key :=
  parseHouseNumberL s.data

/-- Lexicographic strict order on character lists by code point
(Python 2 unicode comparison). -/
def charsLt : List Char → List Char → Bool
  | _, [] => false
  | [], _ :: _ => true
  | a :: as, b :: bs => if a = b then charsLt as bs else decide (a < b)

/-- Python 2 mixed-type comparison on tokens: integers compare among
themselves by value, strings by code-point order, and any integer is
smaller than any string (CPython 2 orders numbers below all other
types). -/
def tokLt : Token → Token → Bool
  | Token.int m, Token.int n => decide (m < n)
  | Token.int _, Token.str _ => true
  | Token.str _, Token.int _ => false
  | Token.str a, Token.str b => charsLt a.data b.data

/-- Python 2 list comparison on keys, strict. -/
def keyLt : Key → Key → Bool
  | _, [] => false
  | [], _ :: _ => true
  | a :: as, b :: bs => if a = b then keyLt as bs else tokLt a b

/-- Python 2 list comparison on keys, non-strict. -/
def keyLe : Key → Key → Bool
  | [], _ => true
  | _ :: _, [] => false
  | a :: as, b :: bs => if a = b then keyLe as bs else tokLt a b

/-- A range attached to a street listing: None (no restriction) or the
list of keys obtained from splitting the numeric suffix on dashes. -/
abbrev HNRange := Option (List Key)

/-- _house_number_in_range (scrape.py lines 149-165).  The result
none models a Python exception escaping the call: for a range that is
neither None nor a singleton the source evaluates number[0] % 2, which
raises IndexError when the parsed number is the empty token list and
TypeError when its first token is a string (string % integer is string
formatting in Python 2); likewise for range[0][0] % 2. -/
def containsM (number : Key) : HNRange → Option Bool
  | none => some true
  | some [k] => some (decide (k = number))
  | some [] => none
  | some (lo :: hi :: _) =>
      match number, lo with
      | [], _ => none
      | Token.str _ :: _, _ => none
      | Token.int _ :: _, [] => none
      | Token.int _ :: _, Token.str _ :: _ => none
      | Token.int nv :: _, Token.int lv :: _ =>
          if nv % 2 ≠ lv % 2 then some false
          else some (keyLe lo number && keyLe number hi)

/-- Replace every occurrence of the letters s, t, r that is followed by
a word boundary with the word strasse: re.sub of the pattern str with
a trailing boundary anchor (scrape.py line 144).  The scan is left to
right; after a failed boundary test the scan advances one character,
after a replacement it continues behind the matched text. -/
def subStr : List Char → List Char
  | 's' :: 't' :: 'r' :: [] => ['s', 't', 'r', 'a', 's', 's', 'e']
  | 's' :: 't' :: 'r' :: c :: rest =>
      if isWordM c then 's' :: subStr ('t' :: 'r' :: c :: rest)
      else ['s', 't', 'r', 'a', 's', 's', 'e'] ++ subStr (c :: rest)
  | c :: rest => c :: subStr rest
  | [] => []

/-- normalize_street_name (scrape.py lines 142-146) on a character
list: strip, lower, unidecode, expand a str token at a word boundary
to strasse, then delete every non-word character. -/
def normL (l : List Char) : List Char :=
  (subStr (((stripL l).map toLowerM).flatMap unidecodeM)).filter isWordM

/-- normalize_street_name on a string. -/
def normalize_street_name (s : String) : String :=
  String.mk (normL s.data)

/-- unicode.title on the modelled range: a cased character is
upper-cased after a non-cased character and lower-cased otherwise. -/
def titleAux : List Char → Bool → List Char
  | [], _ => []
  | c :: cs, prev =>
      if isCasedM c then
        (if prev then toLowerM c else toUpperM c) :: titleAux cs true
      else c :: titleAux cs false

/-- unicode.title of a character list. -/
def titleL (l : List Char) : List Char :=
  titleAux l false

/-- Python split on a dash: all fields are kept, including empty
ones. -/
def splitDash : List Char → List (List Char)
  | [] => [[]]
  | '-' :: rest => [] :: splitDash rest
  | c :: rest =>
      match splitDash rest with
      | s :: ss => (c :: s) :: ss
      | [] => [[c]]

/-- Index of the first decimal digit (re.search of a digit class). -/
def firstDigitIdx : List Char → Option Nat
  | [] => none
  | c :: rest =>
      if isDigitM c then some 0 else (firstDigitIdx rest).map (fun n => n + 1)

/-- _parse_street (scrape.py lines 103-110): without a digit the whole
listing is title-cased and carries no range; otherwise the part before
the first digit is stripped and title-cased and the rest is split on
dashes, each field parsed as a house number. -/
def parseStreetM (s : String) : String × HNRange :=
  match firstDigitIdx s.data with
  | none => (String.mk (titleL s.data), none)
  | some i =>
      (String.mk (titleL (stripL (s.data.take i))),
       some ((splitDash (s.data.drop i)).map parseHouseNumberL))

/-- Per-service collection dates as scraped: service title mapped to a
list of formatted date strings. -/
abbrev ServiceData := List (String × List String)

/-- One accumulated entry of a street record: the range list from the
listing and the scraped data (.none when no attempt produced data). -/
abbrev ScrapeEntry := HNRange × Option ServiceData

/-- The accumulated table: street key mapped to its entries, as an
association list. -/
abbrev Table := List (String × List ScrapeEntry)

/-- Outcome of one fetch attempt for one street, as scrape() observes
it: a data dictionary, a ValueError (no usable date) or a
requests.ConnectionError. -/
inductive FetchOutcome where
  | ok (d : ServiceData)
  | noDate
  | connErr
  deriving DecidableEq

/-- _RETRIES_PER_STREET (scrape.py line 28). -/
def RETRIES_PER_STREET : Nat := 3

/-- The per-street attempt loop of scrape() (lines 123-134): data
starts as None; a successful fetch stores the data and leaves the
loop, a ValueError leaves the loop with data unchanged, a
ConnectionError continues with the next attempt.  The second
component counts the fetch calls that were made. -/
def attemptStreet (fetch : Nat → FetchOutcome) : Nat → Nat → Option ServiceData × Nat
  | _, 0 => (none, 0)
  | i, k + 1 =>
      match fetch i with
      | FetchOutcome.ok d => (some d, 1)
      | FetchOutcome.noDate => (none, 1)
      | FetchOutcome.connErr =>
          ((attemptStreet fetch (i + 1) k).1, (attemptStreet fetch (i + 1) k).2 + 1)

/-- Association-list lookup (Python dict access). -/
def lookupA {α : Type} : List (String × α) → String → Option α
  | [], _ => none
  | (k', v) :: rest, k => if k' = k then some v else lookupA rest k

/-- streets.setdefault(name, []).append(entry) (scrape.py line 135):
append the entry to the record of the key, creating the record when
absent. -/
def appendEntry : Table → String → ScrapeEntry → Table
  | [], k, e => [(k, [e])]
  | (k', v) :: rest, k, e =>
      if k' = k then (k', v ++ [e]) :: rest
      else (k', v) :: appendEntry rest k e

/-- Stable insertion into a sorted list (helper of the final sort). -/
def insertSortedM (le : ScrapeEntry → ScrapeEntry → Bool) (e : ScrapeEntry) :
    List ScrapeEntry → List ScrapeEntry
  | [] => [e]
  | f :: fs => if le e f then e :: f :: fs else f :: insertSortedM le e fs

/-- Stable sort of a street record (list.sort at scrape.py line 138).
Python 2 sorts these heterogeneous entries with its built-in
comparison, whose order on the data dictionaries is not specified by
the language, so the comparison is a parameter of the model. -/
def insertionSortM (le : ScrapeEntry → ScrapeEntry → Bool) :
    List ScrapeEntry → List ScrapeEntry
  | [] => []
  | e :: rest => insertSortedM le e (insertionSortM le rest)

/-- A trivial entry comparison, usable wherever the sort order is
irrelevant. -/
def leTrue : ScrapeEntry → ScrapeEntry → Bool :=
  fun _ _ => true

/-- One iteration of the street loop of scrape() (lines 120-136):
parse the listing, run the attempt loop, and append the (range, data)
entry under the name returned by _parse_street — the title-cased
display name. -/
def scrapeStep (fetch : String → Nat → FetchOutcome) (tbl : Table) (street : String) :
    Table :=
  appendEntry tbl (parseStreetM street).1
    ((parseStreetM street).2, (attemptStreet (fetch street) 0 RETRIES_PER_STREET).1)

/-- scrape() (scrape.py lines 118-139) over a given street list and a
fetch oracle (the HTTP collaborator, indexed by street and attempt
number): accumulate all entries, then sort every record. -/
def scrapeM (listings : List String) (fetch : String → Nat → FetchOutcome)
    (le : ScrapeEntry → ScrapeEntry → Bool) : Table :=
  (listings.foldl (scrapeStep fetch) []).map
    (fun kv => (kv.1, insertionSortM le kv.2))

/-- The exceptions that can escape find_address: the two typed lookup
failures of scrape.py lines 169-170, and the TypeError/IndexError
that _house_number_in_range raises on a bounded range when the parsed
number does not begin with an integer token. -/
inductive PyError where
  | unknownStreet
  | unknownHouseNumber
  | typeError
  deriving DecidableEq

/-- The scan loop of find_address (lines 187-193): first range that
contains the number wins; a Python exception inside the containment
test propagates. -/
def scanRanges (k : Key) : List ScrapeEntry → Except PyError (Option ServiceData)
  | [] => Except.error PyError.unknownHouseNumber
  | e :: rest =>
      match containsM k e.1 with
      | none => Except.error PyError.typeError
      | some true => Except.ok e.2
      | some false => scanRanges k rest

/-- find_address (scrape.py lines 173-193): normalize the street name,
parse the house number, look the name up (UnknownStreetException when
absent), then scan the record in order (UnknownHouseNumberException
when no range matches). -/
def find_address (data : Table) (name number : String) :
    Except PyError (Option ServiceData) :=
  match lookupA data (normalize_street_name name) with
  | none => Except.error PyError.unknownStreet
  | some entries => scanRanges (parseHouseNumber number) entries

/-- Modelled from the spec (section 4.6): the ServiceData of the first
entry whose range contains the parsed number, if any.  This follows
the spec words and is compared against the implementation scan. -/
def specFirstMatch (k : Key) : List ScrapeEntry → Option (Option ServiceData)
  | [] => none
  | e :: rest =>
      if containsM k e.1 = some true then some e.2 else specFirstMatch k rest

/-! ## Helper lemmas -/

theorem charOfNat_toNat (n : Nat) (h : n < 55296) : (Char.ofNat n).toNat = n := by
  simp [Char.ofNat, Nat.isValidChar, h, Char.ofNatAux, Char.toNat, UInt32.toNat]

/-- Lower-casing never produces an upper-case ASCII letter nor one of
the modelled upper-case non-ASCII letters. -/
theorem toLowerM_out (c : Char) :
    ¬(65 ≤ (toLowerM c).toNat ∧ (toLowerM c).toNat ≤ 90) ∧
    (toLowerM c).toNat ≠ 196 ∧ (toLowerM c).toNat ≠ 214 ∧
    (toLowerM c).toNat ≠ 220 ∧ (toLowerM c).toNat ≠ 201 := by
  unfold toLowerM
  split_ifs with h1 h2 h3 h4 h5
  · simp at h1
    rw [charOfNat_toNat _ (by omega)]
    omega
  · decide
  · decide
  · decide
  · decide
  · simp at h1
    omega

/-- Characters that are ASCII but not upper-case letters are fixed by
the lower-case map. -/
theorem toLowerM_fix (c : Char) (h7 : c.toNat ≤ 127)
    (hu : ¬(65 ≤ c.toNat ∧ c.toNat ≤ 90)) : toLowerM c = c := by
  unfold toLowerM
  split_ifs with h1 h2 h3 h4 h5
  · simp at h1
    exact (hu h1).elim
  · exact absurd h2 (by omega)
  · exact absurd h3 (by omega)
  · exact absurd h4 (by omega)
  · exact absurd h5 (by omega)
  · rfl

/-- Whitespace is fixed by the lower-case map. -/
theorem toLowerM_space (c : Char) (h : isSpaceM c = true) : toLowerM c = c := by
  simp [isSpaceM] at h
  exact toLowerM_fix c (by omega) (by omega)

/-- ASCII characters are fixed by the transliteration. -/
theorem unidecodeM_fix (c : Char) (h : c.toNat ≤ 127) : unidecodeM c = [c] := by
  unfold unidecodeM
  rw [if_pos h]

/-- The transliteration of a character that is not one of the modelled
upper-case non-ASCII letters and not an ASCII upper-case letter only
produces ASCII characters that are not upper-case letters. -/
theorem unidecodeM_out (b : Char) (hu : ¬(65 ≤ b.toNat ∧ b.toNat ≤ 90))
    (h196 : b.toNat ≠ 196) (h214 : b.toNat ≠ 214) (h220 : b.toNat ≠ 220)
    (h201 : b.toNat ≠ 201) :
    ∀ c ∈ unidecodeM b, c.toNat ≤ 127 ∧ ¬(65 ≤ c.toNat ∧ c.toNat ≤ 90) := by
  unfold unidecodeM
  split_ifs with h1 h2 h3 h4 h5 h6
  · intro c hc
    simp at hc
    subst hc
    exact ⟨h1, hu⟩
  · intro c hc
    simp at hc
    subst hc
    decide
  · intro c hc
    simp at hc
    subst hc
    decide
  · intro c hc
    simp at hc
    subst hc
    decide
  · intro c hc
    simp at hc
    subst hc
    decide
  · intro c hc
    simp at hc
    subst hc
    decide
  · intro c hc
    simp at hc

/-- Word characters are not whitespace. -/
theorem word_not_space (c : Char) (h : isWordM c = true) : isSpaceM c = false := by
  simp [isWordM] at h
  simp [isSpaceM]
  omega

/-- Unfolding of the sub scan at a position where the pattern cannot
match. -/
theorem subStr_cons_ne (c : Char) (rest : List Char)
    (h1 : c = 's' → rest = ['t', 'r'] → False)
    (h2 : ∀ c1 r1, c = 's' → rest = 't' :: 'r' :: c1 :: r1 → False) :
    subStr (c :: rest) = c :: subStr rest := by
  rw [subStr.eq_def]
  split
  · rename_i heq
    injection heq with hc hr
    exact (h1 hc hr).elim
  · rename_i c1 r1 heq
    injection heq with hc hr
    exact (h2 c1 r1 hc hr).elim
  · rename_i c2 rest2 hn1 hn2 heq
    injection heq with hc hr
    rw [hc, hr]
  · rename_i heq
    exact absurd heq (by simp)

/-- Every character of the substituted string comes from the input or
from the replacement word. -/
theorem mem_subStr (l : List Char) (c : Char) (h : c ∈ subStr l) :
    c ∈ l ∨ c ∈ ['s', 't', 'r', 'a', 's', 's', 'e'] := by
  induction l using subStr.induct with
  | case1 =>
      rw [show subStr ['s', 't', 'r'] = ['s', 't', 'r', 'a', 's', 's', 'e'] from rfl] at h
      exact Or.inr h
  | case2 c' rest hw ih =>
      rw [subStr, if_pos hw] at h
      rcases List.mem_cons.mp h with h | h
      · exact Or.inr (by rw [h]; decide)
      · rcases ih h with h | h
        · exact Or.inl (List.mem_cons_of_mem _ h)
        · exact Or.inr h
  | case3 c' rest hw ih =>
      rw [subStr, if_neg hw] at h
      rcases List.mem_append.mp h with h | h
      · exact Or.inr h
      · rcases ih h with h | h
        · exact Or.inl (List.mem_cons_of_mem _ (List.mem_cons_of_mem _ (List.mem_cons_of_mem _ h)))
        · exact Or.inr h
  | case4 c' rest hn1 hn2 ih =>
      rw [subStr_cons_ne c' rest hn1 hn2] at h
      rcases List.mem_cons.mp h with h | h
      · exact Or.inl (by rw [h]; exact List.mem_cons_self _ _)
      · rcases ih h with h | h
        · exact Or.inl (List.mem_cons_of_mem _ h)
        · exact Or.inr h
  | case5 =>
      rw [show subStr [] = ([] : List Char) from rfl] at h
      cases h

/-- On a string of word characters that does not end in the three
letters s, t, r, the boundary never holds, so the substitution is the
identity. -/
theorem subStr_eq_self (l : List Char) (hw : ∀ c ∈ l, isWordM c = true)
    (hs : ¬ ['s', 't', 'r'] <:+ l) : subStr l = l := by
  induction l using subStr.induct with
  | case1 => exact absurd (List.suffix_refl _) hs
  | case2 c rest hcw ih =>
      rw [subStr, if_pos hcw, ih]
      · intro x hx
        exact hw x (List.mem_cons_of_mem _ hx)
      · intro hsuf
        exact hs (hsuf.trans (List.suffix_cons _ _))
  | case3 c rest hcw ih =>
      exact absurd (hw c (by simp)) (by simp [hcw])
  | case4 c rest hn1 hn2 ih =>
      rw [subStr_cons_ne c rest hn1 hn2, ih]
      · intro x hx
        exact hw x (List.mem_cons_of_mem _ hx)
      · intro hsuf
        exact hs (hsuf.trans (List.suffix_cons _ _))
  | case5 => rfl

/-- A map whose function fixes every element of a list is the
identity on it. -/
theorem map_id_of {α : Type} (f : α → α) (l : List α) (h : ∀ c ∈ l, f c = c) :
    l.map f = l := by
  induction l with
  | nil => rfl
  | cons c cs ih =>
      rw [List.map_cons, h c (List.mem_cons_self _ _), ih]
      intro x hx
      exact h x (List.mem_cons_of_mem _ hx)

/-- A flat map that sends every element of a list to its singleton is
the identity on it. -/
theorem flatMap_id_of (g : Char → List Char) (l : List Char)
    (h : ∀ c ∈ l, g c = [c]) : l.flatMap g = l := by
  induction l with
  | nil => rfl
  | cons c cs ih =>
      rw [List.flatMap_cons, h c (List.mem_cons_self _ _), ih]
      · rfl
      · intro x hx
        exact h x (List.mem_cons_of_mem _ hx)

/-- dropWhile is the identity when the predicate fails on every
element (the head suffices). -/
theorem dropWhile_id_of {α : Type} (p : α → Bool) (l : List α)
    (h : ∀ c ∈ l, p c = false) : l.dropWhile p = l := by
  cases l with
  | nil => rfl
  | cons c cs =>
      rw [List.dropWhile_cons, h c (List.mem_cons_self _ _)]
      simp

/-- strip is the identity on whitespace-free strings. -/
theorem stripL_id (l : List Char) (h : ∀ c ∈ l, isSpaceM c = false) :
    stripL l = l := by
  unfold stripL
  rw [dropWhile_id_of _ _ h, dropWhile_id_of, List.reverse_reverse]
  intro c hc
  exact h c (List.mem_reverse.mp hc)

/-- Every character of a normalized street name is a word character,
ASCII, and not an upper-case letter. -/
theorem normL_chars (l : List Char) :
    ∀ c ∈ normL l, isWordM c = true ∧ c.toNat ≤ 127 ∧
      ¬(65 ≤ c.toNat ∧ c.toNat ≤ 90) := by
  intro c hc
  unfold normL at hc
  rw [List.mem_filter] at hc
  obtain ⟨hmem, hword⟩ := hc
  refine ⟨hword, ?_⟩
  rcases mem_subStr _ _ hmem with hin | hlit
  · rw [List.mem_flatMap] at hin
    obtain ⟨b, hb, hcb⟩ := hin
    rw [List.mem_map] at hb
    obtain ⟨a, _, rfl⟩ := hb
    have hok := toLowerM_out a
    exact unidecodeM_out (toLowerM a) hok.1 hok.2.1 hok.2.2.1 hok.2.2.2.1
      hok.2.2.2.2 c hcb
  · have : c = 's' ∨ c = 't' ∨ c = 'r' ∨ c = 'a' ∨ c = 's' ∨ c = 'e' := by
      simpa using hlit
    rcases this with rfl | rfl | rfl | rfl | rfl | rfl <;> decide

/-- Normalization is a fixed point on its own output as long as that
output does not end in the three letters s, t, r. -/
theorem normL_idem (l : List Char) (hs : ¬ ['s', 't', 'r'] <:+ normL l) :
    normL (normL l) = normL l := by
  have hchars := normL_chars l
  have h1 : stripL (normL l) = normL l :=
    stripL_id _ (fun c hc => word_not_space c (hchars c hc).1)
  have h2 : (normL l).map toLowerM = normL l :=
    map_id_of _ _ (fun c hc => toLowerM_fix c (hchars c hc).2.1 (hchars c hc).2.2)
  have h3 : (normL l).flatMap unidecodeM = normL l :=
    flatMap_id_of _ _ (fun c hc => unidecodeM_fix c (hchars c hc).2.1)
  have h4 : subStr (normL l) = normL l :=
    subStr_eq_self _ (fun c hc => (hchars c hc).1) hs
  have h5 : (normL l).filter isWordM = normL l :=
    List.filter_eq_self.mpr (fun c hc => (hchars c hc).1)
  calc normL (normL l)
      = (subStr (((stripL (normL l)).map toLowerM).flatMap unidecodeM)).filter
          isWordM := rfl
    _ = normL l := by rw [h1, h2, h3, h4, h5]

/-- Character order in terms of code points. -/
theorem charLt_iff (a b : Char) : (a < b) ↔ a.toNat < b.toNat := by
  rw [Char.lt_def, UInt32.lt_def]
  rfl

/-- When no containment test raises, the scan of find_address returns
the data of the first containing range, or the unknown-house-number
failure when there is none. -/
theorem scan_eq_spec (k : Key) (es : List ScrapeEntry)
    (hdef : ∀ e ∈ es, containsM k e.1 ≠ none) :
    scanRanges k es =
      (match specFirstMatch k es with
       | some d => Except.ok d
       | none => Except.error PyError.unknownHouseNumber) := by
  induction es with
  | nil => rfl
  | cons e rest ih =>
      cases hc : containsM k e.1 with
      | none => exact absurd hc (hdef e (List.mem_cons_self _ _))
      | some b =>
          cases b with
          | true =>
              rw [scanRanges, hc, specFirstMatch, if_pos hc]
          | false =>
              rw [scanRanges, hc, specFirstMatch, if_neg (by rw [hc]; simp)]
              exact ih (fun x hx => hdef x (List.mem_cons_of_mem _ hx))

/-- Appending an entry stores it at the back of the record of exactly
the given key. -/
theorem lookup_appendEntry (tbl : Table) (k : String) (e : ScrapeEntry) :
    lookupA (appendEntry tbl k e) k =
      some ((lookupA tbl k).getD [] ++ [e]) := by
  induction tbl with
  | nil => simp [appendEntry, lookupA]
  | cons kv rest ih =>
      by_cases h : kv.1 = k
      · simp [appendEntry, lookupA, h]
      · simp [appendEntry, lookupA, h, ih]

/-- The attempt loop makes at most as many fetch calls as the bound
allows. -/
theorem attemptStreet_calls_le (f : Nat → FetchOutcome) :
    ∀ (k i : Nat), (attemptStreet f i k).2 ≤ k := by
  intro k
  induction k with
  | zero =>
      intro i
      simp [attemptStreet]
  | succ n ih =>
      intro i
      cases hfi : f i with
      | ok d => simp [attemptStreet, hfi]
      | noDate => simp [attemptStreet, hfi]
      | connErr =>
          rw [attemptStreet, hfi]
          exact Nat.succ_le_succ (ih (i + 1))

/-- Keys whose tokens are integers or non-empty runs of the letters
A-Z — everything _parse_house_number produces from ASCII input other
than the sentinel. -/
def tokOkAZ : Token → Bool
  | Token.int _ => true
  | Token.str s => !s.data.isEmpty && s.data.all (fun c => 65 ≤ c.toNat && c.toNat ≤ 90)

/-! ## Concrete inputs used by the claim theorems -/

/-- The abbreviated street name of the example in the source. -/
def sAkademieAbbr : String := "Akademiestr."

/-- The expanded form of the same street name. -/
def sAkademieFull : String := "Akademiestrasse"

/-- A name whose normalization ends in the letters s, t, r. -/
def sStDotR : String := "st.r"

/-- The sentinel word with surrounding whitespace. -/
def sEndePadded : String := "  ende "

/-- The sentinel word in mixed case, no whitespace. -/
def sEndeMixed : String := "eNdE"

/-- The sentinel word as it appears in listings. -/
def sEnde : String := "Ende"

/-- A single lower-case a-umlaut. -/
def sAUmlaut : String := "ä"

/-- A single blank. -/
def sBlank : String := " "

/-- A plain word. -/
def sAbc : String := "abc"

/-- A listing with the abbreviated street name and one house number. -/
def sListingAkademie : String := "Akademiestr. 1"

/-- A minimal listing. -/
def sListingS1 : String := "S 1"

/-- Display name of the minimal listing. -/
def sNameS : String := "S"

/-- A listing whose numeric suffix has three dash-separated fields. -/
def sListing135 : String := "Name 1-3-5"

/-- A one-letter street key. -/
def sX : String := "x"

/-- A house number inside the example range. -/
def sNum4 : String := "4"

/-- A service title. -/
def svcPaper : String := "Papier"

/-- A date string. -/
def svcDate : String := "2026-01-05"

/-- Example service data. -/
def dData0 : ServiceData := [(svcPaper, [svcDate])]

/-- The single record of the example table. -/
def entriesX : List ScrapeEntry :=
  [(some [[Token.int 2], [Token.int 10]], some dData0)]

/-- An example table: one street with one bounded even range 2-10. -/
def tableX : Table := [(sX, entriesX)]

/-- A fetch oracle failing transiently on the first two attempts. -/
def fetch3 : Nat → FetchOutcome
  | 0 => FetchOutcome.connErr
  | 1 => FetchOutcome.connErr
  | _ => FetchOutcome.ok dData0

/-! ## Claim theorems -/

/-- Claim C2 (confirmed): for a bounded range (two or more keys) whose
low key leads with an even integer token and any parsed number leading
with an odd integer token, _house_number_in_range returns false, no
matter where the number lies relative to the bounds. -/
theorem c2_bounded_parity (e o : Nat) (lo0 k0 : List Token) (hi : Key)
    (rest : List Key) (he : e % 2 = 0) (ho : o % 2 = 1) :
    containsM (Token.int o :: k0) (some ((Token.int e :: lo0) :: hi :: rest)) =
      some false := by
  have hred : containsM (Token.int o :: k0)
      (some ((Token.int e :: lo0) :: hi :: rest)) =
      if o % 2 ≠ e % 2 then some false
      else some (keyLe (Token.int e :: lo0) (Token.int o :: k0) &&
        keyLe (Token.int o :: k0) hi) := rfl
  rw [hred, if_pos (by omega)]

/-- Witness for C2: house number 3 against the bounded range 2-10. -/
theorem c2_bounded_parity_witness :
    containsM [Token.int 3] (some [[Token.int 2], [Token.int 10]]) = some false :=
  c2_bounded_parity 2 3 [] [] [Token.int 10] [] rfl rfl

/-- Claim C6 (code_bug): the spec requires that a key whose first
token is not an integer (the sentinel included) never match a bounded
range, as a defined edge case returning false.  The code instead
evaluates number[0] % 2, which in Python 2 is string formatting when
number[0] is a string and an IndexError when the key is empty: the
call raises instead of returning false.  The none results below are
exactly those raised exceptions; they are not the value false the
claim demands. -/
theorem c6_bounded_nonnumeric_raises :
    (∀ (s : String) (ts lo hi : Key) (rest : List Key),
      containsM (Token.str s :: ts) (some (lo :: hi :: rest)) = none) ∧
    (∀ (lo hi : Key) (rest : List Key),
      containsM ([] : Key) (some (lo :: hi :: rest)) = none) ∧
    parseHouseNumber sEnde = [sentinelTok] ∧
    containsM [sentinelTok] (some [[Token.int 2], [Token.int 10]]) = none := by
  refine ⟨fun s ts lo hi rest => rfl, fun lo hi rest => rfl, by decide, by decide⟩

/-- Claim C10 (confirmed): a listing whose numeric suffix has three or
more dash-separated fields yields a range of as many keys, and the
containment test of a range with at least two keys only consults the
first two, ignoring every further key. -/
theorem c10_extra_segments :
    (∀ (s : String) (i : Nat), firstDigitIdx s.data = some i →
      3 ≤ (splitDash (s.data.drop i)).length →
      ∃ l, (parseStreetM s).2 = some l ∧ 3 ≤ l.length) ∧
    (∀ (k lo hi : Key) (rest : List Key),
      containsM k (some (lo :: hi :: rest)) = containsM k (some [lo, hi])) := by
  constructor
  · intro s i hidx hlen
    refine ⟨(splitDash (s.data.drop i)).map parseHouseNumberL, ?_, ?_⟩
    · unfold parseStreetM
      rw [hidx]
    · rw [List.length_map]
      exact hlen
  · intro k lo hi rest
    rfl

/-- Witness for C10: the listing with suffix 1-3-5 produces three
keys. -/
theorem c10_extra_segments_witness :
    ∃ l, (parseStreetM sListing135).2 = some l ∧ 3 ≤ l.length :=
  c10_extra_segments.1 sListing135 5 (by decide) (by decide)

/-- Counterexample to claim C4: the sentinel test of
_parse_house_number compares the lower-cased input before removing
whitespace, so the padded spelling is NOT recognized as the sentinel:
it tokenizes to the single upper-cased run ENDE. -/
theorem c4_whitespace_counterexample :
    parseHouseNumber sEndePadded ≠ [sentinelTok] ∧
    parseHouseNumber sEndePadded = [Token.str (String.mk ['E', 'N', 'D', 'E'])] := by
  decide

/-- Claim C4 as amended: exactly the strings whose lower-casing is the
four letters ende — case is ignored, surrounding whitespace is not —
parse to the sentinel key. -/
theorem c4_sentinel_case_only (s : String) (h : lowerL s.data = strEnde) :
    parseHouseNumber s = [sentinelTok] := by
  unfold parseHouseNumber parseHouseNumberL
  rw [if_pos h]

/-- Witness for C4 (amended): a mixed-case spelling without padding is
recognized. -/
theorem c4_sentinel_case_only_witness :
    parseHouseNumber sEndeMixed = [sentinelTok] :=
  c4_sentinel_case_only sEndeMixed (by decide)

/-- Counterexample to claim C5: _parse_house_number defines no
InvalidHouseNumberError and raises nothing on whitespace-only input;
it returns the empty token list as an ordinary value (the groupby over
the empty string yields no runs). -/
theorem c5_no_error_counterexample :
    parseHouseNumber sBlank = ([] : Key) ∧
    parseHouseNumber (String.mk []) = ([] : Key) := by
  decide

/-- Claim C5 as amended: on every input that is empty after whitespace
removal, parse returns the empty key normally. -/
theorem c5_empty_returns_empty_key (s : String)
    (h : s.data.filter (fun c => !isSpaceM c) = []) : parseHouseNumber s = [] := by
  have hall : ∀ c ∈ s.data, isSpaceM c = true := by
    intro c hc
    have := List.filter_eq_nil_iff.mp h c hc
    simpa using this
  have hne : lowerL s.data ≠ strEnde := by
    intro heq
    cases hdata : s.data with
    | nil =>
        rw [hdata] at heq
        exact absurd heq (by decide)
    | cons c cs =>
        have hc : isSpaceM c = true := hall c (by rw [hdata]; exact List.mem_cons_self _ _)
        rw [hdata] at heq
        unfold lowerL at heq
        rw [List.map_cons] at heq
        injection heq with h1 h2
        rw [toLowerM_space c hc] at h1
        rw [h1] at hc
        exact absurd hc (by decide)
  unfold parseHouseNumber parseHouseNumberL
  rw [if_neg hne, h]
  rfl

/-- Witness for C5 (amended): the blank string. -/
theorem c5_empty_returns_empty_key_witness : parseHouseNumber sBlank = [] :=
  c5_empty_returns_empty_key sBlank (by decide)

/-- Counterexample to claim C7: the claim includes keys with
non-ASCII letter tokens, but _parse_house_number of a lower-case
a-umlaut yields the token with upper-case a-umlaut (code point 196),
which is GREATER than the tilde sentinel (code point 126): the
sentinel compares strictly smaller, not greater. -/
theorem c7_sentinel_counterexample :
    parseHouseNumber sAUmlaut = [Token.str (String.mk ['Ä'])] ∧
    keyLt [sentinelTok] (parseHouseNumber sAUmlaut) = true := by
  decide

/-- Claim C7 as amended: the sentinel key compares strictly greater
than every key whose tokens are integers or non-empty runs of the
ASCII letters A-Z (the stated property holds for ASCII letter runs,
exactly as the source docstring promises for A-Z, not for arbitrary
letters). -/
theorem c7_sentinel_greatest_ascii (k : Key) (hk : k.all tokOkAZ = true) :
    keyLt k [sentinelTok] = true ∧ keyLt [sentinelTok] k = false := by
  cases k with
  | nil => exact ⟨rfl, rfl⟩
  | cons t ts =>
      rw [List.all_cons, Bool.and_eq_true] at hk
      obtain ⟨ht, _⟩ := hk
      cases t with
      | int n =>
          have hneq : Token.int n ≠ sentinelTok := by
            intro heq
            exact absurd heq (by simp [sentinelTok])
          constructor
          · rw [keyLt, if_neg hneq]
            rfl
          · rw [keyLt, if_neg (Ne.symm hneq)]
            rfl
      | str s =>
          have ht' : (!s.data.isEmpty) = true ∧
              s.data.all (fun c => 65 ≤ c.toNat && c.toNat ≤ 90) = true := by
            rw [← Bool.and_eq_true]
            exact ht
          obtain ⟨hne, hallAZ⟩ := ht'
          cases hsd : s.data with
          | nil =>
              rw [hsd] at hne
              exact absurd hne (by decide)
          | cons c cs =>
              have hcz : 65 ≤ c.toNat ∧ c.toNat ≤ 90 := by
                have := List.all_eq_true.mp hallAZ c
                  (by rw [hsd]; exact List.mem_cons_self _ _)
                simpa using this
              have h126 : Char.toNat '~' = 126 := by decide
              have hc126 : c ≠ '~' := by
                intro hceq
                rw [hceq] at hcz
                omega
              have hneq : Token.str s ≠ sentinelTok := by
                intro heq
                injection heq with hs2
                have hd : s.data = ['~'] := by rw [hs2]
                rw [hsd] at hd
                injection hd with hc2 _
                exact hc126 hc2
              constructor
              · rw [keyLt, if_neg hneq]
                show charsLt s.data ['~'] = true
                rw [hsd, charsLt, if_neg hc126, decide_eq_true_eq, charLt_iff]
                omega
              · rw [keyLt, if_neg (Ne.symm hneq)]
                show charsLt ['~'] s.data = false
                rw [hsd, charsLt, if_neg (Ne.symm hc126),
                  decide_eq_false_iff_not, charLt_iff]
                omega

/-- Witness for C7 (amended): a key with an integer and an A-Z run. -/
theorem c7_sentinel_greatest_ascii_witness :
    keyLt [Token.int 12, Token.str (String.mk ['A'])] [sentinelTok] = true ∧
    keyLt [sentinelTok] [Token.int 12, Token.str (String.mk ['A'])] = false :=
  c7_sentinel_greatest_ascii [Token.int 12, Token.str (String.mk ['A'])] (by decide)

/-- Counterexample to claim C9: the table built by scrape() keys the
record of the example listing under the title-cased display name, not
under its normalization: looking the normalized name up in the built
table finds nothing, and the display name is not equal to its own
normalization. -/
theorem c9_not_normalized_counterexample :
    lookupA (scrapeM [sListingAkademie] (fun _ _ => FetchOutcome.ok dData0) leTrue)
        (normalize_street_name sAkademieAbbr) = none ∧
    normalize_street_name (parseStreetM sListingAkademie).1 ≠
      (parseStreetM sListingAkademie).1 := by
  decide

/-- Claim C9 as amended: every processed listing appends its
(ranges, data) entry to the record stored under the DISPLAY name
returned by _parse_street (title-cased, unnormalized); normalization
to lookup keys happens only later, when the main program re-keys the
loaded table. -/
theorem c9_display_name_keying :
    (∀ (fetch : String → Nat → FetchOutcome) (tbl : Table) (street : String),
      lookupA (scrapeStep fetch tbl street) (parseStreetM street).1 =
        some ((lookupA tbl (parseStreetM street).1).getD [] ++
          [((parseStreetM street).2,
            (attemptStreet (fetch street) 0 RETRIES_PER_STREET).1)])) ∧
    scrapeM [sListingAkademie] (fun _ _ => FetchOutcome.ok dData0) leTrue =
      [(sAkademieAbbr, [(some [[Token.int 1]], some dData0)])] := by
  constructor
  · intro fetch tbl street
    exact lookup_appendEntry tbl (parseStreetM street).1 _
  · decide

/-- Claim C3 (confirmed): in the per-street attempt loop a connection
failure is retried (up to the bound of three attempts, counting fetch
calls) while a no-usable-date failure ends the attempts immediately
with one call; with the bound of three and a fetch that fails
transiently twice and then succeeds, the run records the street with
the successful result, and the loop being a total function of the
oracle, the earlier failures do not escape the run. -/
theorem c3_retry_policy (f : Nat → FetchOutcome) (d : ServiceData) :
    (f 0 = FetchOutcome.connErr → f 1 = FetchOutcome.connErr →
      f 2 = FetchOutcome.ok d →
      attemptStreet f 0 RETRIES_PER_STREET = (some d, 3) ∧
      scrapeM [sListingS1] (fun _ => f) leTrue =
        [(sNameS, [(some [[Token.int 1]], some d)])]) ∧
    (f 0 = FetchOutcome.noDate →
      attemptStreet f 0 RETRIES_PER_STREET = (none, 1)) ∧
    (∀ (i k : Nat), (attemptStreet f i k).2 ≤ k) := by
  refine ⟨?_, ?_, fun i k => attemptStreet_calls_le f k i⟩
  · intro h0 h1 h2
    have ha : attemptStreet f 0 RETRIES_PER_STREET = (some d, 3) := by
      simp [attemptStreet, RETRIES_PER_STREET, h0, h1, h2]
    refine ⟨ha, ?_⟩
    have hp : parseStreetM sListingS1 = (sNameS, some [[Token.int 1]]) := by
      decide
    simp [scrapeM, scrapeStep, hp, ha, appendEntry, insertionSortM, insertSortedM]
  · intro h0
    simp [attemptStreet, RETRIES_PER_STREET, h0]

/-- Witness for C3: the oracle that fails transiently on the first two
attempts and succeeds on the third. -/
theorem c3_retry_policy_witness :
    attemptStreet fetch3 0 RETRIES_PER_STREET = (some dData0, 3) ∧
    scrapeM [sListingS1] (fun _ => fetch3) leTrue =
      [(sNameS, [(some [[Token.int 1]], some dData0)])] :=
  (c3_retry_policy fetch3 dData0).1 rfl rfl rfl

/-- Claim C1 as amended: find_address normalizes the name and parses
the number; an absent normalized name fails with the unknown-street
error; otherwise, PROVIDED no containment test of the scan raises (in
particular whenever the parsed number leads with an integer token),
the result is the data of the first entry whose range contains the
number, and the unknown-house-number error when no range matches. -/
theorem c1_resolve (data : Table) (name number : String) :
    (lookupA data (normalize_street_name name) = none →
      find_address data name number = Except.error PyError.unknownStreet) ∧
    (∀ es, lookupA data (normalize_street_name name) = some es →
      (∀ e ∈ es, containsM (parseHouseNumber number) e.1 ≠ none) →
      find_address data name number =
        (match specFirstMatch (parseHouseNumber number) es with
         | some d => Except.ok d
         | none => Except.error PyError.unknownHouseNumber)) := by
  constructor
  · intro h
    unfold find_address
    rw [h]
  · intro es h hdef
    unfold find_address
    rw [h]
    exact scan_eq_spec _ _ hdef

/-- Witness for C1 (amended): resolving number 4 in the example table
returns the stored data of the range 2-10. -/
theorem c1_resolve_witness :
    find_address tableX sX sNum4 = Except.ok (some dData0) := by
  have h := (c1_resolve tableX sX sNum4).2 entriesX (by decide) (by decide)
  rw [h]
  decide

/-- Counterexample to claim C1: with the street present and a bounded
range in its record, resolving the house number Ende does not produce
the unknown-house-number failure the claim requires for a
non-matching scan — the containment test raises a TypeError (the
sentinel token is formatted by the percent operator), which
propagates out of find_address. -/
theorem c1_typeerror_counterexample :
    find_address tableX sX sEnde = Except.error PyError.typeError ∧
    (Except.error PyError.typeError :
      Except PyError (Option ServiceData)) ≠
      Except.error PyError.unknownHouseNumber := by
  decide

/-- Counterexample to claim C8: normalize_street_name is NOT
idempotent.  Stripping the dot of the input revealed below leaves the
output ending in the three letters s, t, r, and a second application
expands them to strasse. -/
theorem c8_not_idempotent_counterexample :
    normalize_street_name (normalize_street_name sStDotR) ≠
      normalize_street_name sStDotR := by
  decide

/-- Claim C8 as amended: normalization is idempotent on every input
whose normalized form does not end in the three letters s, t, r (on
such outputs nothing is stripped, lowered, transliterated or
expanded again), and the abbreviated and the expanded spelling of the
example street normalize to the same key. -/
theorem c8_normalize_idem :
    (∀ x : String,
      List.isSuffixOf ['s', 't', 'r'] (normalize_street_name x).data = false →
      normalize_street_name (normalize_street_name x) = normalize_street_name x) ∧
    normalize_street_name sAkademieAbbr = normalize_street_name sAkademieFull := by
  constructor
  · intro x hx
    have hx' : ¬ ['s', 't', 'r'] <:+ normL x.data := by
      intro hsuf
      have hb : List.isSuffixOf ['s', 't', 'r'] (normL x.data) = true := by
        rw [List.isSuffixOf_iff_suffix]
        exact hsuf
      have hx2 : List.isSuffixOf ['s', 't', 'r'] (normL x.data) = false := hx
      rw [hb] at hx2
      cases hx2
    exact congrArg String.mk (normL_idem x.data hx')
  · decide

/-- Witness for C8 (amended): a plain word. -/
theorem c8_normalize_idem_witness :
    normalize_street_name (normalize_street_name sAbc) = normalize_street_name sAbc :=
  c8_normalize_idem.1 sAbc (by decide)
